import Mathlib

/-!
Verification development for the MySQL clustering reconciliation engine
(`controllers/mysql_clustering.go`).  The Go data model and the pure
decision logic (`decideNextOperation` and its stages) are embedded as
executable Lean definitions.  Go pointers become `Option`, Go `sql.NullString`
becomes a two-field record, and a Go run-time panic (nil dereference or
out-of-range slice index) is represented by an `Option`-valued result being
`none`.  Machine integers (`int`, `int32`) are modelled as `Int`; the only
arithmetic performed by the engine (counting, subtraction, division by two of
a small replica count) stays far from any overflow boundary.
-/

/-- Mirrors Go `sql.NullString`: a string plus a validity flag.  Go compares
these values with `==`, which compares both fields. -/
structure NullString where
  string : String
  valid : Bool
deriving DecidableEq, Repr

/-- Observed state of a primary, from `SHOW MASTER STATUS`
(`MySQLPrimaryStatus` in the source). -/
structure MySQLPrimaryStatus where
  executedGtidSet : NullString
deriving DecidableEq, Repr

/-- Observed state of a replica, from `SHOW SLAVE STATUS`
(`MySQLReplicaStatus` in the source). -/
structure MySQLReplicaStatus where
  id : Int
  lastIoErrno : Int
  lastIoError : NullString
  lastSqlErrno : Int
  lastSqlError : NullString
  masterHost : String
  retrievedGtidSet : NullString
  executedGtidSet : NullString
  slaveIoRunning : String
  slaveSqlRunning : String
deriving DecidableEq, Repr

/-- Observed global variables of an instance
(`MySQLGlobalVariablesStatus` in the source). -/
structure MySQLGlobalVariablesStatus where
  readOnly : Bool
  superReadOnly : Bool
  rplSemiSyncMasterWaitForSlaveCount : Int
deriving DecidableEq, Repr

/-- Observed clone state of an instance (`MySQLCloneStateStatus`). -/
structure MySQLCloneStateStatus where
  state : NullString
deriving DecidableEq, Repr

/-- Observed state of one MySQL instance (`MySQLInstanceStatus`).  The four
record pointers of the Go struct become `Option`s. -/
structure MySQLInstanceStatus where
  available : Bool
  primaryStatus : Option MySQLPrimaryStatus
  replicaStatus : Option MySQLReplicaStatus
  globalVariableStatus : Option MySQLGlobalVariablesStatus
  cloneStateStatus : Option MySQLCloneStateStatus
deriving DecidableEq, Repr

/-- Observed state of the whole cluster (`MySQLClusterStatus`): one entry per
ordinal instance index. -/
structure MySQLClusterStatus where
  instanceStatus : List MySQLInstanceStatus
deriving DecidableEq, Repr

/-- Condition types recognised on the cluster resource.  Modelled from the
spec: the `mocov1alpha1` condition constants live outside the given sources;
the spec fixes the five stable keys. -/
inductive MySQLClusterConditionType where
  | conditionAvailable
  | conditionHealthy
  | conditionOutOfSync
  | conditionFailure
  | conditionViolation
deriving DecidableEq, Repr

/-- Tri-state condition status (`corev1.ConditionTrue` and friends). -/
inductive ConditionStatus where
  | conditionTrue
  | conditionFalse
  | conditionUnknown
deriving DecidableEq, Repr

/-- One condition on the cluster resource.  Modelled from the spec: a typed
(status, message) tuple; the last-transition timestamp is not relevant to any
claim and is omitted. -/
structure MySQLClusterCondition where
  condType : MySQLClusterConditionType
  status : ConditionStatus
  message : String
deriving DecidableEq, Repr

/-- Persisted status of the cluster resource.  Modelled from the spec
(`mocov1alpha1.MySQLClusterStatus` is outside the given sources): optional
current primary index, synced-replica count, ready tri-state, conditions. -/
structure MySQLClusterResourceStatus where
  currentPrimaryIndex : Option Int
  syncedReplicas : Int
  ready : ConditionStatus
  conditions : List MySQLClusterCondition
deriving DecidableEq, Repr

/-- Declared specification of the cluster resource.  Modelled from the spec:
`replicas` is the declared number of instances (`int32` in the API). -/
structure MySQLClusterSpec where
  replicas : Int
deriving DecidableEq, Repr

/-- The cluster resource.  Modelled from the spec: namespace and the unique
cluster identity used to derive DNS names are carried as plain strings. -/
structure MySQLCluster where
  namespaceName : String
  clusterUniqueName : String
  spec : MySQLClusterSpec
  status : MySQLClusterResourceStatus
deriving DecidableEq, Repr

/-- Modelled from the spec: `uniqueName(cluster)` (defined outside the given
sources) returns the unique cluster identity used in pod and service DNS
names. -/
def uniqueName (cluster : MySQLCluster) : String :=
  cluster.clusterUniqueName

/-- The planner errors (`moco.ErrUnavailableHost`,
`moco.ErrConstraintsViolation`, `moco.ErrConstraintsRecovered`). -/
inductive MocoError where
  | errUnavailableHost
  | errConstraintsViolation
  | errConstraintsRecovered
deriving DecidableEq, Repr

/-- Modelled from the spec: the message strings of the `moco` error values
(defined outside the given sources).  Only used as condition messages; no
claim depends on the exact text. -/
def mocoErrorMessage : MocoError → String
  | MocoError.errUnavailableHost => "unavailable host exists"
  | MocoError.errConstraintsViolation => "constraints violation occurred"
  | MocoError.errConstraintsRecovered => "constraints recovered"

/-- The three operator kinds (`updatePrimaryOp`, `configureReplicationOp`,
`turnOffReadOnlyOp`), as a tagged variant carrying their Go struct fields. -/
inductive Operator where
  | updatePrimaryOp (newPrimaryIndex : Int)
  | configureReplicationOp (index : Int) (primaryHost : String)
  | turnOffReadOnlyOp (primaryIndex : Int)
deriving DecidableEq, Repr

/-- `Operation` from the source: operators to run, a wait flag, conditions to
publish, and an optional synced-replica count. -/
structure Operation where
  operators : List Operator
  wait : Bool
  conditions : List MySQLClusterCondition
  syncedReplicas : Option Int
deriving DecidableEq, Repr

/-- Go slice indexing `l[i]` with an `int` index: out of range (negative or
past the end) is a run-time panic, modelled as `none`. -/
def goIndex {α : Type} (l : List α) (i : Int) : Option α :=
  if 0 ≤ i then l.get? i.toNat else none

/-- Go integer division truncates toward zero; `Int.tdiv` has exactly that
rounding.  Used for `cluster.Spec.Replicas / 2`. -/
def goHalf (n : Int) : Int :=
  Int.tdiv n 2

/-- Modelled from the spec: `findCondition` (defined outside the given
sources) looks up the condition with the given type in a condition set keyed
by type, returning nil when absent. -/
def findCondition (conditions : List MySQLClusterCondition)
    (t : MySQLClusterConditionType) : Option MySQLClusterCondition :=
  conditions.find? (fun c => c.condType = t)

/-- Modelled from the spec: `setCondition` (defined outside the given
sources) upserts a condition into a condition set keyed by type. -/
def setCondition (conditions : List MySQLClusterCondition)
    (c : MySQLClusterCondition) : List MySQLClusterCondition :=
  if conditions.any (fun x => x.condType = c.condType) then
    conditions.map (fun x => if x.condType = c.condType then c else x)
  else
    conditions ++ [c]

/-- The Go code formats the out-of-sync list with `fmt.Sprintf("%#v", l)`;
the exact text is irrelevant to every claim, so the list is rendered with
`toString`. -/
def outOfSyncMsg (outOfSyncInstances : List Int) : String :=
  "outOfSync instances: " ++ toString outOfSyncInstances

/-- `violationCondition` from the source: Violation=True (with the error
message), Failure=True, Available=False, Healthy=False. -/
def violationCondition (e : MocoError) : List MySQLClusterCondition :=
  setCondition (setCondition (setCondition (setCondition []
    (MySQLClusterCondition.mk MySQLClusterConditionType.conditionViolation
      ConditionStatus.conditionTrue (mocoErrorMessage e)))
    (MySQLClusterCondition.mk MySQLClusterConditionType.conditionFailure
      ConditionStatus.conditionTrue ""))
    (MySQLClusterCondition.mk MySQLClusterConditionType.conditionAvailable
      ConditionStatus.conditionFalse ""))
    (MySQLClusterCondition.mk MySQLClusterConditionType.conditionHealthy
      ConditionStatus.conditionFalse "")

/-- `unavailableCondition` from the source: OutOfSync (False when the list is
empty, True with a message otherwise), Failure=False, Healthy=False,
Available=False. -/
def unavailableCondition (outOfSyncInstances : List Int) :
    List MySQLClusterCondition :=
  let base :=
    if outOfSyncInstances.isEmpty then
      setCondition []
        (MySQLClusterCondition.mk MySQLClusterConditionType.conditionOutOfSync
          ConditionStatus.conditionFalse "")
    else
      setCondition []
        (MySQLClusterCondition.mk MySQLClusterConditionType.conditionOutOfSync
          ConditionStatus.conditionTrue (outOfSyncMsg outOfSyncInstances))
  setCondition (setCondition (setCondition base
    (MySQLClusterCondition.mk MySQLClusterConditionType.conditionFailure
      ConditionStatus.conditionFalse ""))
    (MySQLClusterCondition.mk MySQLClusterConditionType.conditionHealthy
      ConditionStatus.conditionFalse ""))
    (MySQLClusterCondition.mk MySQLClusterConditionType.conditionAvailable
      ConditionStatus.conditionFalse "")

/-- `availableCondition` from the source: OutOfSync=False and Healthy=True
when the list is empty, OutOfSync=True (with message) and Healthy=False
otherwise; then Failure=False and Available=True. -/
def availableCondition (outOfSyncInstances : List Int) :
    List MySQLClusterCondition :=
  let base :=
    if outOfSyncInstances.isEmpty then
      setCondition (setCondition []
        (MySQLClusterCondition.mk MySQLClusterConditionType.conditionOutOfSync
          ConditionStatus.conditionFalse ""))
        (MySQLClusterCondition.mk MySQLClusterConditionType.conditionHealthy
          ConditionStatus.conditionTrue "")
    else
      setCondition (setCondition []
        (MySQLClusterCondition.mk MySQLClusterConditionType.conditionOutOfSync
          ConditionStatus.conditionTrue (outOfSyncMsg outOfSyncInstances)))
        (MySQLClusterCondition.mk MySQLClusterConditionType.conditionHealthy
          ConditionStatus.conditionFalse "")
  setCondition (setCondition base
    (MySQLClusterCondition.mk MySQLClusterConditionType.conditionFailure
      ConditionStatus.conditionFalse ""))
    (MySQLClusterCondition.mk MySQLClusterConditionType.conditionAvailable
      ConditionStatus.conditionTrue "")

/-- Status of a condition type inside a condition set (lookup helper for
stating claims). -/
def condStatus (conditions : List MySQLClusterCondition)
    (t : MySQLClusterConditionType) : Option ConditionStatus :=
  (findCondition conditions t).map MySQLClusterCondition.status

/-- The scan loop of `validateConstraints`: walks the instance list counting
writable instances (`!GlobalVariableStatus.ReadOnly`) and remembering the
index of the last writable one (Go zero value 0 when none).  Dereferences
`GlobalVariableStatus` unconditionally, so a nil record is a panic
(`none`). -/
def scanWritable : List MySQLInstanceStatus → Int → Int × Int →
    Option (Int × Int)
  | [], _, acc => some acc
  | is :: rest, i, acc =>
    match is.globalVariableStatus with
    | none => none
    | some gv =>
      if gv.readOnly = false then scanWritable rest (i + 1) (acc.fst + 1, i)
      else scanWritable rest (i + 1) acc

/-- The second check of `validateConstraints`: `currentPrimaryIndex` is set,
exactly one instance is writable, and it is a different instance. -/
def primaryMismatch (cluster : MySQLCluster) (res : Int × Int) : Bool :=
  match cluster.status.currentPrimaryIndex with
  | some cpi => if res.fst = 1 ∧ cpi ≠ res.snd then true else false
  | none => false

/-- `validateConstraints` from the source.  Returns `none` on a nil
dereference, otherwise `some (some e)` for an error outcome and `some none`
for OK. -/
def validateConstraints (status : MySQLClusterStatus)
    (cluster : MySQLCluster) : Option (Option MocoError) :=
  match scanWritable status.instanceStatus 0 (0, 0) with
  | none => none
  | some res =>
    if 1 < res.fst then some (some MocoError.errConstraintsViolation)
    else if primaryMismatch cluster res then
      some (some MocoError.errConstraintsViolation)
    else if (findCondition cluster.status.conditions
        MySQLClusterConditionType.conditionViolation).isSome then
      some (some MocoError.errConstraintsRecovered)
    else some none

/-- `selectPrimary` from the source: returns index 0 unconditionally
(failover is not implemented). -/
def selectPrimary (status : MySQLClusterStatus) (cluster : MySQLCluster) :
    Int :=
  0

/-- `updatePrimary` from the source: no operator when the persisted
`currentPrimaryIndex` already equals the selected index, otherwise one
`updatePrimaryOp`. -/
def updatePrimary (cluster : MySQLCluster) (newPrimaryIndex : Int) :
    List Operator :=
  match cluster.status.currentPrimaryIndex with
  | some cpi =>
    if cpi = newPrimaryIndex then []
    else [Operator.updatePrimaryOp newPrimaryIndex]
  | none => [Operator.updatePrimaryOp newPrimaryIndex]

/-- The primary's DNS name derived in `configureReplication`:
`"<uniqueName>-<primaryIndex>.<uniqueName>.<namespace>.svc"`. -/
def primaryHostName (cluster : MySQLCluster) (primaryIndex : Int) : String :=
  uniqueName cluster ++ "-" ++ toString primaryIndex ++ "." ++
    uniqueName cluster ++ "." ++ cluster.namespaceName ++ ".svc"

/-- The loop of `configureReplication`: for every non-primary instance whose
`ReplicaStatus` is nil or whose `MasterHost` differs from the derived DNS
name, emit one `configureReplicationOp`. -/
def configureLoop : List MySQLInstanceStatus → Int → Int → String →
    List Operator
  | [], _, _, _ => []
  | is :: rest, i, cpi, host =>
    if i = cpi then configureLoop rest (i + 1) cpi host
    else
      match is.replicaStatus with
      | none =>
        Operator.configureReplicationOp i host ::
          configureLoop rest (i + 1) cpi host
      | some rs =>
        if rs.masterHost ≠ host then
          Operator.configureReplicationOp i host ::
            configureLoop rest (i + 1) cpi host
        else configureLoop rest (i + 1) cpi host

/-- `configureReplication` from the source.  Dereferences
`cluster.Status.CurrentPrimaryIndex` before the loop, so a nil index is a
panic (`none`). -/
def configureReplication (status : MySQLClusterStatus)
    (cluster : MySQLCluster) : Option (List Operator) :=
  match cluster.status.currentPrimaryIndex with
  | none => none
  | some cpi =>
    some (configureLoop status.instanceStatus 0 cpi
      (primaryHostName cluster cpi))

/-- The loop of `waitForReplication`: skips the primary, dereferences each
`ReplicaStatus` without a nil check (panic = `none`), collects out-of-sync
indices (`LastIoErrno ≠ 0`) in ascending order and counts the replicas whose
`ExecutedGtidSet` equals the primary's. -/
def waitLoop : List MySQLInstanceStatus → Int → Int → NullString → Int →
    List Int → Option (Int × List Int)
  | [], _, _, _, count, oos => some (count, oos)
  | is :: rest, i, pidx, g, count, oos =>
    if i = pidx then waitLoop rest (i + 1) pidx g count oos
    else
      match is.replicaStatus with
      | none => none
      | some rs =>
        if rs.lastIoErrno ≠ 0 then
          waitLoop rest (i + 1) pidx g count (oos ++ [i])
        else if rs.executedGtidSet = g then
          waitLoop rest (i + 1) pidx g (count + 1) oos
        else waitLoop rest (i + 1) pidx g count oos

/-- `waitForReplication` from the source: returns the wait flag and the
out-of-sync index list.  Dereferences the current primary index, the
primary's instance entry, its `PrimaryStatus` and (after the loop) its
`GlobalVariableStatus`; each nil or out-of-range access is a panic
(`none`). -/
def waitForReplication (status : MySQLClusterStatus)
    (cluster : MySQLCluster) : Option (Bool × List Int) :=
  match cluster.status.currentPrimaryIndex with
  | none => none
  | some primaryIndex =>
    match goIndex status.instanceStatus primaryIndex with
    | none => none
    | some pst =>
      match pst.primaryStatus with
      | none => none
      | some primaryRecord =>
        match waitLoop status.instanceStatus 0 primaryIndex
            primaryRecord.executedGtidSet 0 [] with
        | none => none
        | some res =>
          match pst.globalVariableStatus with
          | none => none
          | some gv =>
            if gv.readOnly = false then some (false, res.snd)
            else
              some (decide (res.fst < goHalf cluster.spec.replicas), res.snd)

/-- `acceptWriteRequest` from the source: one `turnOffReadOnlyOp` when the
primary still reports read-only, nothing otherwise. -/
def acceptWriteRequest (status : MySQLClusterStatus)
    (cluster : MySQLCluster) : Option (List Operator) :=
  match cluster.status.currentPrimaryIndex with
  | none => none
  | some primaryIndex =>
    match goIndex status.instanceStatus primaryIndex with
    | none => none
    | some pst =>
      match pst.globalVariableStatus with
      | none => none
      | some gv =>
        if gv.readOnly = false then some []
        else some [Operator.turnOffReadOnlyOp primaryIndex]

/-- Stages D to G of `decideNextOperation` (after primary promotion emitted
nothing). -/
def decideAfterUpdatePrimary (cluster : MySQLCluster)
    (status : MySQLClusterStatus) :
    Option (Option Operation × Option MocoError) :=
  match configureReplication status cluster with
  | none => none
  | some ops =>
    if ops.length ≠ 0 then
      some (some (Operation.mk ops false [] none), none)
    else
      match waitForReplication status cluster with
      | none => none
      | some wr =>
        if wr.fst = true then
          some (some (Operation.mk [] true (unavailableCondition wr.snd)
            none), none)
        else
          let syncedReplicas :=
            cluster.spec.replicas - (wr.snd.length : Int)
          match acceptWriteRequest status cluster with
          | none => none
          | some ops3 =>
            if ops3.length ≠ 0 then
              some (some (Operation.mk ops3 false
                (availableCondition wr.snd) (some syncedReplicas)), none)
            else
              some (some (Operation.mk [] false
                (availableCondition wr.snd) (some syncedReplicas)), none)

/-- Stages C to G of `decideNextOperation` (after constraint validation
passed). -/
def decideAfterValidate (cluster : MySQLCluster)
    (status : MySQLClusterStatus) :
    Option (Option Operation × Option MocoError) :=
  let ops := updatePrimary cluster (selectPrimary status cluster)
  if ops.length ≠ 0 then
    some (some (Operation.mk ops false [] none), none)
  else decideAfterUpdatePrimary cluster status

/-- `decideNextOperation` from the source: the staged planner.  The result
pairs the returned `*Operation` with the returned error, each optional, and
the outer `Option` is `none` exactly when the Go code would panic. -/
def decideNextOperation (cluster : MySQLCluster)
    (status : MySQLClusterStatus) :
    Option (Option Operation × Option MocoError) :=
  if status.instanceStatus.any (fun is => !is.available) then
    some (none, some MocoError.errUnavailableHost)
  else
    match validateConstraints status cluster with
    | none => none
    | some (some e) =>
      some (some (Operation.mk [] false (violationCondition e) none), some e)
    | some none => decideAfterValidate cluster status

/-- Outcome of the per-instance probe queries in `getMySQLClusterStatus`.
For each sub-query, `none` is a query error; for `SHOW SLAVE STATUS` and the
clone query an empty (but successful) result is `some none`. -/
structure InstanceProbeResult where
  getDB : Option Unit
  primary : Option MySQLPrimaryStatus
  replica : Option (Option MySQLReplicaStatus)
  globalVars : Option MySQLGlobalVariablesStatus
  clone : Option (Option MySQLCloneStateStatus)
deriving DecidableEq, Repr

/-- The loop body of `getMySQLClusterStatus` for one instance: starts from
`Available=false`, assigns each sub-status in order, stops at the first
failed query, and sets `Available=true` only after all four succeeded. -/
def probeInstance (p : InstanceProbeResult) : MySQLInstanceStatus :=
  match p.getDB with
  | none => MySQLInstanceStatus.mk false none none none none
  | some _ =>
    match p.primary with
    | none => MySQLInstanceStatus.mk false none none none none
    | some ps =>
      match p.replica with
      | none => MySQLInstanceStatus.mk false (some ps) none none none
      | some rs =>
        match p.globalVars with
        | none => MySQLInstanceStatus.mk false (some ps) rs none none
        | some gv =>
          match p.clone with
          | none =>
            MySQLInstanceStatus.mk false (some ps) rs (some gv) none
          | some cs =>
            MySQLInstanceStatus.mk true (some ps) rs (some gv) cs

/-- Events observable during `updatePrimaryOp.Run`: the resource-store write
of `currentPrimaryIndex`, and MySQL statements. -/
inductive RunEvent where
  | storeWriteCurrentPrimaryIndex (idx : Int)
  | mysqlExec (stmt : String)
deriving DecidableEq, Repr

/-- The first statement `updatePrimaryOp.Run` executes. -/
def semiSyncEnableStmt : String :=
  "SET GLOBAL rpl_semi_sync_master_enabled=ON,GLOBAL rpl_semi_sync_slave_enabled=OFF"

/-- The conditional statement setting the semi-sync wait count. -/
def waitCountStmt : String :=
  "SET GLOBAL rpl_semi_sync_master_wait_for_slave_count=?"

/-- Failure injection for `updatePrimaryOp.Run`: whether each fallible
external call succeeds. -/
structure UpdatePrimaryEnv where
  getDBOk : Bool
  statusUpdateOk : Bool
  execSemiSyncOk : Bool
  execWaitCountOk : Bool
deriving DecidableEq, Repr

/-- `updatePrimaryOp.Run` from the source, as an event trace: open a handle,
persist `currentPrimaryIndex`, enable semi-sync master, then set the wait
count only when the observed value differs from `replicas/2`.  The result is
the emitted trace plus an error flag; `none` models the panic on a nil
`GlobalVariableStatus` or an out-of-range primary index. -/
def updatePrimaryRun (env : UpdatePrimaryEnv) (cluster : MySQLCluster)
    (status : MySQLClusterStatus) (newPrimaryIndex : Int) :
    Option (List RunEvent × Bool) :=
  if env.getDBOk = false then some ([], true)
  else
    let ev1 := RunEvent.storeWriteCurrentPrimaryIndex newPrimaryIndex
    if env.statusUpdateOk = false then some ([ev1], true)
    else
      let ev2 := RunEvent.mysqlExec semiSyncEnableStmt
      if env.execSemiSyncOk = false then some ([ev1, ev2], true)
      else
        let expected := goHalf cluster.spec.replicas
        match goIndex status.instanceStatus newPrimaryIndex with
        | none => none
        | some st =>
          match st.globalVariableStatus with
          | none => none
          | some gv =>
            if gv.rplSemiSyncMasterWaitForSlaveCount = expected then
              some ([ev1, ev2], false)
            else
              some ([ev1, ev2, RunEvent.mysqlExec waitCountStmt],
                env.execWaitCountOk = false)

/-- Recogniser for MySQL statement events. -/
def RunEvent.isMysqlExec : RunEvent → Bool
  | RunEvent.mysqlExec _ => true
  | RunEvent.storeWriteCurrentPrimaryIndex _ => false

/-- Claim-side description of the writable instances: the indices (from
`start`) whose observed `GlobalVariableStatus` reports `readOnly = false`. -/
def writableIdxFrom : List MySQLInstanceStatus → Int → List Int
  | [], _ => []
  | is :: rest, i =>
    match is.globalVariableStatus with
    | none => writableIdxFrom rest (i + 1)
    | some gv =>
      if gv.readOnly = false then i :: writableIdxFrom rest (i + 1)
      else writableIdxFrom rest (i + 1)

/-- Claim-side description of stage D: the indices (from `start`) of
non-primary instances whose replica record is nil or whose master host
differs from the derived DNS name. -/
def misconfiguredIdx : List MySQLInstanceStatus → Int → Int → String →
    List Int
  | [], _, _, _ => []
  | is :: rest, i, cpi, host =>
    if i = cpi then misconfiguredIdx rest (i + 1) cpi host
    else
      match is.replicaStatus with
      | none => i :: misconfiguredIdx rest (i + 1) cpi host
      | some rs =>
        if rs.masterHost ≠ host then
          i :: misconfiguredIdx rest (i + 1) cpi host
        else misconfiguredIdx rest (i + 1) cpi host

/-- Claim-side description of the out-of-sync instances: non-primary indices
whose replica record reports `lastIoErrno ≠ 0`. -/
def outOfSyncSpec : List MySQLInstanceStatus → Int → Int → List Int
  | [], _, _ => []
  | is :: rest, i, pidx =>
    if i = pidx then outOfSyncSpec rest (i + 1) pidx
    else
      match is.replicaStatus with
      | none => outOfSyncSpec rest (i + 1) pidx
      | some rs =>
        if rs.lastIoErrno ≠ 0 then i :: outOfSyncSpec rest (i + 1) pidx
        else outOfSyncSpec rest (i + 1) pidx

/-- Claim-side description of the caught-up count: non-primary instances with
`lastIoErrno = 0` whose executed GTID set equals the primary's. -/
def caughtUpCount : List MySQLInstanceStatus → Int → Int → NullString → Int
  | [], _, _, _ => 0
  | is :: rest, i, pidx, g =>
    if i = pidx then caughtUpCount rest (i + 1) pidx g
    else
      match is.replicaStatus with
      | none => caughtUpCount rest (i + 1) pidx g
      | some rs =>
        if rs.lastIoErrno ≠ 0 then caughtUpCount rest (i + 1) pidx g
        else if rs.executedGtidSet = g then caughtUpCount rest (i + 1) pidx g + 1
        else caughtUpCount rest (i + 1) pidx g

/-- Every non-primary entry (positions counted from `start`) carries a
non-nil replica record. -/
def NonPrimaryReplicaSome : List MySQLInstanceStatus → Int → Int → Prop
  | [], _, _ => True
  | is :: rest, i, cpi =>
    (i ≠ cpi → is.replicaStatus.isSome = true) ∧
      NonPrimaryReplicaSome rest (i + 1) cpi

/-! ### Concrete fixtures used by witnesses and counterexamples -/

/-- A read-only instance's global variables. -/
def fixGvReadOnly : MySQLGlobalVariablesStatus :=
  MySQLGlobalVariablesStatus.mk true true 0

/-- A writable primary's global variables (wait count already 1). -/
def fixGvWritable : MySQLGlobalVariablesStatus :=
  MySQLGlobalVariablesStatus.mk false false 1

/-- The invalid (NULL) string. -/
def fixNullStr : NullString := NullString.mk "" false

/-- A concrete executed GTID set. -/
def fixGtid : NullString := NullString.mk "uuid:1-5" true

/-- A concrete primary record. -/
def fixPrimaryRec : MySQLPrimaryStatus := MySQLPrimaryStatus.mk fixGtid

/-- A replica record replicating from `host` with the given I/O errno and
executed GTID set. -/
def fixReplicaRec (host : String) (errno : Int) (g : NullString) :
    MySQLReplicaStatus :=
  MySQLReplicaStatus.mk 0 errno fixNullStr 0 fixNullStr host fixNullStr g
    "Yes" "Yes"

/-- An instance status with no clone record. -/
def fixInstance (av : Bool) (ps : Option MySQLPrimaryStatus)
    (rs : Option MySQLReplicaStatus)
    (gv : Option MySQLGlobalVariablesStatus) : MySQLInstanceStatus :=
  MySQLInstanceStatus.mk av ps rs gv none

/-- A cluster named `c` in namespace `ns`. -/
def fixCluster (reps : Int) (cpi : Option Int)
    (conds : List MySQLClusterCondition) : MySQLCluster :=
  MySQLCluster.mk "ns" "c" (MySQLClusterSpec.mk reps)
    (MySQLClusterResourceStatus.mk cpi 0 ConditionStatus.conditionUnknown
      conds)

/-- The DNS name of instance 0 of the fixture cluster. -/
def fixHost : String := "c-0.c.ns.svc"

/-- Steady-state three-instance cluster resource (scenario 2 of the spec). -/
def steadyCluster : MySQLCluster := fixCluster 3 (some 0) []

/-- Steady-state observed status: writable primary 0, two caught-up
replicas. -/
def steadyStatus : MySQLClusterStatus := MySQLClusterStatus.mk
  [ fixInstance true (some fixPrimaryRec) none (some fixGvWritable),
    fixInstance true (some fixPrimaryRec)
      (some (fixReplicaRec fixHost 0 fixGtid)) (some fixGvReadOnly),
    fixInstance true (some fixPrimaryRec)
      (some (fixReplicaRec fixHost 0 fixGtid)) (some fixGvReadOnly) ]

/-- One-instance cluster resource with the primary already promoted. -/
def oneCluster : MySQLCluster := fixCluster 1 (some 0) []

/-- One available, writable instance. -/
def oneStatus : MySQLClusterStatus := MySQLClusterStatus.mk
  [ fixInstance true (some fixPrimaryRec) none (some fixGvWritable) ]

/-- A status with a single unavailable instance. -/
def unavailStatus : MySQLClusterStatus :=
  MySQLClusterStatus.mk [fixInstance false none none none]

/-- A two-instance cluster resource with no promoted primary. -/
def twoCluster : MySQLCluster := fixCluster 2 none []

/-- Two available instances that are both writable (a violation). -/
def twoWritableStatus : MySQLClusterStatus := MySQLClusterStatus.mk
  [ fixInstance true (some fixPrimaryRec) none (some fixGvWritable),
    fixInstance true (some fixPrimaryRec) none (some fixGvWritable) ]

/-- Replication-gate status: the primary is still read-only, both replicas
are caught up. -/
def gateStatus : MySQLClusterStatus := MySQLClusterStatus.mk
  [ fixInstance true (some fixPrimaryRec) none (some fixGvReadOnly),
    fixInstance true (some fixPrimaryRec)
      (some (fixReplicaRec fixHost 0 fixGtid)) (some fixGvReadOnly),
    fixInstance true (some fixPrimaryRec)
      (some (fixReplicaRec fixHost 0 fixGtid)) (some fixGvReadOnly) ]

/-- A three-instance cluster resource before first promotion. -/
def freshCluster : MySQLCluster := fixCluster 3 none []

/-- Three available, read-only instances, replication unconfigured. -/
def freshStatus : MySQLClusterStatus := MySQLClusterStatus.mk
  [ fixInstance true (some fixPrimaryRec) none (some fixGvReadOnly),
    fixInstance true (some fixPrimaryRec) none (some fixGvReadOnly),
    fixInstance true (some fixPrimaryRec) none (some fixGvReadOnly) ]

/-- Status with instance 1 lacking a replica record and instance 2 pointing
at the wrong master host. -/
def misconfStatus : MySQLClusterStatus := MySQLClusterStatus.mk
  [ fixInstance true (some fixPrimaryRec) none (some fixGvReadOnly),
    fixInstance true (some fixPrimaryRec) none (some fixGvReadOnly),
    fixInstance true (some fixPrimaryRec)
      (some (fixReplicaRec "other-host" 0 fixGtid)) (some fixGvReadOnly) ]

/-- One available, read-only instance. -/
def oneROStatus : MySQLClusterStatus := MySQLClusterStatus.mk
  [ fixInstance true (some fixPrimaryRec) none (some fixGvReadOnly) ]

/-- A one-instance cluster resource whose stored conditions carry
Violation=True. -/
def recTrueCluster : MySQLCluster := fixCluster 1 none
  [ MySQLClusterCondition.mk MySQLClusterConditionType.conditionViolation
      ConditionStatus.conditionTrue "prior violation" ]

/-- A one-instance cluster resource whose stored conditions carry a
Violation condition with status False. -/
def recFalseCluster : MySQLCluster := fixCluster 1 none
  [ MySQLClusterCondition.mk MySQLClusterConditionType.conditionViolation
      ConditionStatus.conditionFalse "" ]

/-- A probe outcome in which all four queries succeed, with empty replica
and clone result sets. -/
def fixProbe : InstanceProbeResult :=
  InstanceProbeResult.mk (some ()) (some fixPrimaryRec) (some none)
    (some fixGvWritable) (some none)

/-- A one-instance observed status produced entirely by the probe. -/
def probeStatus : MySQLClusterStatus :=
  MySQLClusterStatus.mk [probeInstance fixProbe]

/-! ### Basic lemmas about the embedded functions -/

theorem anyNotAvailableFalse {l : List MySQLInstanceStatus}
    (hav : ∀ is ∈ l, is.available = true) :
    l.any (fun is => !is.available) = false := by
  rw [List.any_eq_false]
  intro x hx
  simp [hav x hx]

theorem getLastD_cons : ∀ (q : List Int) (x p : Int),
    ((x :: q).getLast?).getD p = (q.getLast?).getD x := by
  intro q
  induction q with
  | nil => intro x p; rfl
  | cons a as ih =>
    intro x p
    rw [List.getLast?_cons_cons, ih a p, ih a x]

theorem scanWritable_eq : ∀ (l : List MySQLInstanceStatus) (i c p : Int),
    (∀ is ∈ l, is.globalVariableStatus.isSome = true) →
    scanWritable l i (c, p) =
      some (c + ((writableIdxFrom l i).length : Int),
        ((writableIdxFrom l i).getLast?).getD p) := by
  intro l
  induction l with
  | nil => intro i c p _; simp [scanWritable, writableIdxFrom]
  | cons is rest ih =>
    intro i c p h
    obtain ⟨gv, hgve⟩ :=
      Option.isSome_iff_exists.mp (h is (List.mem_cons_self is rest))
    have hrest : ∀ x ∈ rest, x.globalVariableStatus.isSome = true :=
      fun x hx => h x (List.mem_cons_of_mem _ hx)
    cases hro : gv.readOnly with
    | false =>
      simp only [scanWritable, writableIdxFrom, hgve, hro, if_pos]
      rw [ih (i + 1) (c + 1) i hrest, getLastD_cons]
      simp only [Option.some.injEq, Prod.mk.injEq, List.length_cons]
      constructor
      · push_cast
        ring
      · trivial
    | true =>
      simp only [scanWritable, writableIdxFrom, hgve, hro]
      rw [if_neg (by simp), if_neg (by simp)]
      exact ih (i + 1) c p hrest

theorem validateConstraints_eq {status : MySQLClusterStatus}
    {cluster : MySQLCluster}
    (h : ∀ is ∈ status.instanceStatus, is.globalVariableStatus.isSome = true) :
    validateConstraints status cluster =
      some (
        if 1 < ((writableIdxFrom status.instanceStatus 0).length : Int) then
          some MocoError.errConstraintsViolation
        else if primaryMismatch cluster
            (((writableIdxFrom status.instanceStatus 0).length : Int),
             ((writableIdxFrom status.instanceStatus 0).getLast?).getD 0) then
          some MocoError.errConstraintsViolation
        else if (findCondition cluster.status.conditions
            MySQLClusterConditionType.conditionViolation).isSome then
          some MocoError.errConstraintsRecovered
        else none) := by
  unfold validateConstraints
  rw [scanWritable_eq _ 0 0 0 h]
  simp only [zero_add]
  split_ifs <;> rfl

theorem configureLoop_eq_map :
    ∀ (l : List MySQLInstanceStatus) (i cpi : Int) (host : String),
    configureLoop l i cpi host =
      (misconfiguredIdx l i cpi host).map
        (fun j => Operator.configureReplicationOp j host) := by
  intro l
  induction l with
  | nil => intros; rfl
  | cons is rest ih =>
    intro i cpi host
    by_cases hp : i = cpi
    · simp [configureLoop, misconfiguredIdx, hp, ih]
    · cases hrs : is.replicaStatus with
      | none => simp [configureLoop, misconfiguredIdx, hp, hrs, ih]
      | some rs =>
        by_cases hh : rs.masterHost ≠ host
        · simp [configureLoop, misconfiguredIdx, hp, hrs, hh, ih]
        · simp [configureLoop, misconfiguredIdx, hp, hrs, hh, ih]

theorem misconfigured_lb :
    ∀ (l : List MySQLInstanceStatus) (i cpi : Int) (host : String) (j : Int),
    j ∈ misconfiguredIdx l i cpi host → i ≤ j := by
  intro l
  induction l with
  | nil => intro i cpi host j hj; simp [misconfiguredIdx] at hj
  | cons is rest ih =>
    intro i cpi host j hj
    by_cases hp : i = cpi
    · simp only [misconfiguredIdx, if_pos hp] at hj
      have := ih (i + 1) cpi host j hj
      omega
    · simp only [misconfiguredIdx, if_neg hp] at hj
      cases hrs : is.replicaStatus with
      | none =>
        simp only [hrs] at hj
        rcases List.mem_cons.mp hj with h | h
        · omega
        · have := ih (i + 1) cpi host j h
          omega
      | some rs =>
        by_cases hh : rs.masterHost ≠ host
        · simp only [hrs, if_pos hh] at hj
          rcases List.mem_cons.mp hj with h | h
          · omega
          · have := ih (i + 1) cpi host j h
            omega
        · simp only [hrs, if_neg hh] at hj
          have := ih (i + 1) cpi host j hj
          omega

theorem misconfigured_ub :
    ∀ (l : List MySQLInstanceStatus) (i cpi : Int) (host : String) (j : Int),
    j ∈ misconfiguredIdx l i cpi host → j < i + (l.length : Int) := by
  intro l
  induction l with
  | nil => intro i cpi host j hj; simp [misconfiguredIdx] at hj
  | cons is rest ih =>
    intro i cpi host j hj
    have hlen : ((is :: rest).length : Int) = (rest.length : Int) + 1 := by
      simp
    rw [hlen]
    by_cases hp : i = cpi
    · simp only [misconfiguredIdx, if_pos hp] at hj
      have := ih (i + 1) cpi host j hj
      omega
    · simp only [misconfiguredIdx, if_neg hp] at hj
      cases hrs : is.replicaStatus with
      | none =>
        simp only [hrs] at hj
        rcases List.mem_cons.mp hj with h | h
        · omega
        · have := ih (i + 1) cpi host j h
          omega
      | some rs =>
        by_cases hh : rs.masterHost ≠ host
        · simp only [hrs, if_pos hh] at hj
          rcases List.mem_cons.mp hj with h | h
          · omega
          · have := ih (i + 1) cpi host j h
            omega
        · simp only [hrs, if_neg hh] at hj
          have := ih (i + 1) cpi host j hj
          omega

theorem misconfigured_sorted :
    ∀ (l : List MySQLInstanceStatus) (i cpi : Int) (host : String),
    List.Sorted (fun a b => a < b) (misconfiguredIdx l i cpi host) := by
  intro l
  induction l with
  | nil => intro i cpi host; simp [misconfiguredIdx]
  | cons is rest ih =>
    intro i cpi host
    by_cases hp : i = cpi
    · simp only [misconfiguredIdx, if_pos hp]
      exact ih (i + 1) cpi host
    · simp only [misconfiguredIdx, if_neg hp]
      cases hrs : is.replicaStatus with
      | none =>
        simp only [hrs]
        refine List.sorted_cons.mpr ⟨?_, ih (i + 1) cpi host⟩
        intro b hb
        have := misconfigured_lb rest (i + 1) cpi host b hb
        omega
      | some rs =>
        by_cases hh : rs.masterHost ≠ host
        · simp only [hrs, if_pos hh]
          refine List.sorted_cons.mpr ⟨?_, ih (i + 1) cpi host⟩
          intro b hb
          have := misconfigured_lb rest (i + 1) cpi host b hb
          omega
        · simp only [hrs, if_neg hh]
          exact ih (i + 1) cpi host

theorem misconfigured_mem :
    ∀ (l : List MySQLInstanceStatus) (i cpi : Int) (host : String)
      (k : Nat) (is : MySQLInstanceStatus), l.get? k = some is →
    ((i + (k : Int)) ∈ misconfiguredIdx l i cpi host ↔
      (i + (k : Int) ≠ cpi ∧ (is.replicaStatus = none ∨
        ∃ rs, is.replicaStatus = some rs ∧ rs.masterHost ≠ host))) := by
  intro l
  induction l with
  | nil => intro i cpi host k is hk; simp at hk
  | cons a rest ih =>
    intro i cpi host k is hk
    cases k with
    | zero =>
      have ha : is = a := by
        simp [List.get?] at hk
        exact hk.symm
      subst ha
      simp only [Nat.cast_zero, add_zero]
      by_cases hp : i = cpi
      · simp only [misconfiguredIdx, if_pos hp]
        constructor
        · intro hmem
          have := misconfigured_lb rest (i + 1) cpi host i hmem
          omega
        · intro hc
          exact absurd hp hc.1
      · cases hrs : is.replicaStatus with
        | none =>
          simp only [misconfiguredIdx, if_neg hp, hrs]
          simp [hp]
        | some rs =>
          by_cases hh : rs.masterHost ≠ host
          · simp only [misconfiguredIdx, if_neg hp, hrs, if_pos hh]
            simp [hp, hh]
          · simp only [misconfiguredIdx, if_neg hp, hrs, if_neg hh]
            constructor
            · intro hmem
              have := misconfigured_lb rest (i + 1) cpi host i hmem
              omega
            · intro hc
              rcases hc.2 with hnone | ⟨rs2, hrs2, hh2⟩
              · cases hnone
              · injection hrs2 with h3
                subst h3
                exact absurd hh2 hh
    | succ k2 =>
      have hk2 : rest.get? k2 = some is := by
        simpa [List.get?] using hk
      have hcast : i + ((k2 + 1 : Nat) : Int) = (i + 1) + (k2 : Int) := by
        push_cast
        ring
      rw [hcast]
      have hne_head : (i + 1) + (k2 : Int) ≠ i := by omega
      by_cases hp : i = cpi
      · simp only [misconfiguredIdx, if_pos hp]
        exact ih (i + 1) cpi host k2 is hk2
      · cases hrs : a.replicaStatus with
        | none =>
          simp only [misconfiguredIdx, if_neg hp, hrs, List.mem_cons]
          rw [ih (i + 1) cpi host k2 is hk2]
          constructor
          · intro hor
            rcases hor with heq | hc
            · exact absurd heq hne_head
            · exact hc
          · intro hc
            exact Or.inr hc
        | some rs =>
          by_cases hh : rs.masterHost ≠ host
          · simp only [misconfiguredIdx, if_neg hp, hrs, if_pos hh,
              List.mem_cons]
            rw [ih (i + 1) cpi host k2 is hk2]
            constructor
            · intro hor
              rcases hor with heq | hc
              · exact absurd heq hne_head
              · exact hc
            · intro hc
              exact Or.inr hc
          · simp only [misconfiguredIdx, if_neg hp, hrs, if_neg hh]
            exact ih (i + 1) cpi host k2 is hk2

theorem configureLoop_nil_replicaSome :
    ∀ (l : List MySQLInstanceStatus) (i cpi : Int) (host : String),
    configureLoop l i cpi host = [] → NonPrimaryReplicaSome l i cpi := by
  intro l
  induction l with
  | nil => intro i cpi host _; trivial
  | cons is rest ih =>
    intro i cpi host h
    by_cases hp : i = cpi
    · simp only [configureLoop, if_pos hp] at h
      exact ⟨fun hne => absurd hp hne, ih (i + 1) cpi host h⟩
    · cases hrs : is.replicaStatus with
      | none =>
        simp only [configureLoop, if_neg hp, hrs] at h
        cases h
      | some rs =>
        by_cases hh : rs.masterHost ≠ host
        · simp only [configureLoop, if_neg hp, hrs, if_pos hh] at h
          cases h
        · simp only [configureLoop, if_neg hp, hrs, if_neg hh] at h
          exact ⟨fun _ => by rw [hrs]; rfl, ih (i + 1) cpi host h⟩

theorem waitLoop_eq :
    ∀ (l : List MySQLInstanceStatus) (i pidx : Int) (g : NullString)
      (c : Int) (oos : List Int) (r : Int × List Int),
    waitLoop l i pidx g c oos = some r →
    r = (c + caughtUpCount l i pidx g, oos ++ outOfSyncSpec l i pidx) := by
  intro l
  induction l with
  | nil =>
    intro i pidx g c oos r h
    simp only [waitLoop, Option.some.injEq] at h
    simp [caughtUpCount, outOfSyncSpec, ← h]
  | cons is rest ih =>
    intro i pidx g c oos r h
    by_cases hp : i = pidx
    · simp only [waitLoop, if_pos hp] at h
      simp only [caughtUpCount, outOfSyncSpec, if_pos hp]
      exact ih (i + 1) pidx g c oos r h
    · cases hrs : is.replicaStatus with
      | none =>
        simp only [waitLoop, if_neg hp, hrs] at h
        cases h
      | some rs =>
        by_cases herr : rs.lastIoErrno ≠ 0
        · simp only [waitLoop, if_neg hp, hrs, if_pos herr] at h
          simp only [caughtUpCount, outOfSyncSpec, if_neg hp, hrs,
            if_pos herr]
          have := ih (i + 1) pidx g c (oos ++ [i]) r h
          rw [this]
          simp
        · by_cases hg : rs.executedGtidSet = g
          · simp only [waitLoop, if_neg hp, hrs, if_neg herr, if_pos hg] at h
            simp only [caughtUpCount, outOfSyncSpec, if_neg hp, hrs,
              if_neg herr, if_pos hg]
            have := ih (i + 1) pidx g (c + 1) oos r h
            rw [this]
            simp only [Prod.mk.injEq]
            exact ⟨by ring, trivial⟩
          · simp only [waitLoop, if_neg hp, hrs, if_neg herr, if_neg hg] at h
            simp only [caughtUpCount, outOfSyncSpec, if_neg hp, hrs,
              if_neg herr, if_neg hg]
            exact ih (i + 1) pidx g c oos r h

theorem waitLoop_isSome :
    ∀ (l : List MySQLInstanceStatus) (i pidx : Int) (g : NullString)
      (c : Int) (oos : List Int),
    NonPrimaryReplicaSome l i pidx →
    (waitLoop l i pidx g c oos).isSome = true := by
  intro l
  induction l with
  | nil => intro i pidx g c oos _; rfl
  | cons is rest ih =>
    intro i pidx g c oos h
    obtain ⟨h1, h2⟩ := h
    by_cases hp : i = pidx
    · simp only [waitLoop, if_pos hp]
      exact ih (i + 1) pidx g c oos h2
    · obtain ⟨rs, hrs⟩ := Option.isSome_iff_exists.mp (h1 hp)
      by_cases herr : rs.lastIoErrno ≠ 0
      · simp only [waitLoop, if_neg hp, hrs, if_pos herr]
        exact ih (i + 1) pidx g c (oos ++ [i]) h2
      · by_cases hg : rs.executedGtidSet = g
        · simp only [waitLoop, if_neg hp, hrs, if_neg herr, if_pos hg]
          exact ih (i + 1) pidx g (c + 1) oos h2
        · simp only [waitLoop, if_neg hp, hrs, if_neg herr, if_neg hg]
          exact ih (i + 1) pidx g c oos h2

theorem outOfSyncSpec_length_le :
    ∀ (l : List MySQLInstanceStatus) (i pidx : Int),
    (outOfSyncSpec l i pidx).length ≤ l.length := by
  intro l
  induction l with
  | nil => intro i pidx; simp [outOfSyncSpec]
  | cons is rest ih =>
    intro i pidx
    by_cases hp : i = pidx
    · simp only [outOfSyncSpec, if_pos hp, List.length_cons]
      have := ih (i + 1) pidx
      omega
    · cases hrs : is.replicaStatus with
      | none =>
        simp only [outOfSyncSpec, if_neg hp, hrs, List.length_cons]
        have := ih (i + 1) pidx
        omega
      | some rs =>
        by_cases herr : rs.lastIoErrno ≠ 0
        · simp only [outOfSyncSpec, if_neg hp, hrs, if_pos herr,
            List.length_cons]
          have := ih (i + 1) pidx
          omega
        · simp only [outOfSyncSpec, if_neg hp, hrs, if_neg herr,
            List.length_cons]
          have := ih (i + 1) pidx
          omega

theorem outOfSyncSpec_cons_zero (a : MySQLInstanceStatus)
    (rest : List MySQLInstanceStatus) :
    outOfSyncSpec (a :: rest) 0 0 = outOfSyncSpec rest 1 0 := by
  simp [outOfSyncSpec]

theorem goIndex_mem {α : Type} {l : List α} {i : Int} {x : α}
    (h : goIndex l i = some x) : x ∈ l := by
  unfold goIndex at h
  split at h
  · exact List.get?_mem h
  · cases h

theorem goIndex_cons_zero {α : Type} (a : α) (l : List α) :
    goIndex (a :: l) 0 = some a := by
  simp [goIndex]

theorem goIndex_nil_none {α : Type} (i : Int) :
    goIndex ([] : List α) i = none := by
  unfold goIndex
  split
  · simp
  · rfl

theorem updatePrimary_eq_nil_iff (cluster : MySQLCluster) (n : Int) :
    updatePrimary cluster n = [] ↔
      cluster.status.currentPrimaryIndex = some n := by
  unfold updatePrimary
  cases h : cluster.status.currentPrimaryIndex with
  | none => simp
  | some cpi =>
    by_cases hc : cpi = n
    · simp [hc]
    · simp [hc]

theorem condStatus_availableCondition (l : List Int) :
    condStatus (availableCondition l)
      MySQLClusterConditionType.conditionAvailable =
      some ConditionStatus.conditionTrue := by
  cases l <;> rfl

theorem condStatus_unavailableCondition (l : List Int) :
    condStatus (unavailableCondition l)
      MySQLClusterConditionType.conditionAvailable =
      some ConditionStatus.conditionFalse := by
  cases l <;> rfl

theorem availableCondition_length (l : List Int) :
    (availableCondition l).length = 4 := by
  cases l <;> rfl

theorem unavailableCondition_ne_availableCondition (l l2 : List Int) :
    unavailableCondition l ≠ availableCondition l2 := by
  intro h
  have h1 := condStatus_unavailableCondition l
  rw [h, condStatus_availableCondition l2] at h1
  cases h1

theorem probeInstance_available {p : InstanceProbeResult}
    (h : (probeInstance p).available = true) :
    (probeInstance p).primaryStatus.isSome = true ∧
      (probeInstance p).globalVariableStatus.isSome = true := by
  rcases p with ⟨gdb, pr, rep, gvv, cl⟩
  cases gdb <;> cases pr <;> cases rep <;> cases gvv <;> cases cl <;>
    simp [probeInstance] at h ⊢

theorem decideNext_unavailable {cluster : MySQLCluster}
    {status : MySQLClusterStatus}
    (h : status.instanceStatus.any (fun is => !is.available) = true) :
    decideNextOperation cluster status =
      some (none, some MocoError.errUnavailableHost) := by
  simp [decideNextOperation, h]

theorem decideNext_allAvailable {cluster : MySQLCluster}
    {status : MySQLClusterStatus}
    (hav : ∀ is ∈ status.instanceStatus, is.available = true) :
    decideNextOperation cluster status =
      match validateConstraints status cluster with
      | none => none
      | some (some e) =>
        some (some (Operation.mk [] false (violationCondition e) none),
          some e)
      | some none => decideAfterValidate cluster status := by
  unfold decideNextOperation
  rw [anyNotAvailableFalse hav]
  simp

theorem decideAfterValidate_newPrimary {cluster : MySQLCluster}
    {status : MySQLClusterStatus}
    (h : cluster.status.currentPrimaryIndex ≠ some 0) :
    decideAfterValidate cluster status =
      some (some (Operation.mk [Operator.updatePrimaryOp 0] false [] none),
        none) := by
  have hops : updatePrimary cluster (selectPrimary status cluster) =
      [Operator.updatePrimaryOp 0] := by
    unfold updatePrimary selectPrimary
    cases hc : cluster.status.currentPrimaryIndex with
    | none => rfl
    | some cpi =>
      have : cpi ≠ 0 := by
        intro he
        exact h (by rw [hc, he])
      simp [this]
  unfold decideAfterValidate
  rw [hops]
  simp

theorem decideAfterValidate_primaryKept {cluster : MySQLCluster}
    {status : MySQLClusterStatus}
    (h : cluster.status.currentPrimaryIndex = some 0) :
    decideAfterValidate cluster status =
      decideAfterUpdatePrimary cluster status := by
  have hops : updatePrimary cluster (selectPrimary status cluster) = [] := by
    unfold selectPrimary
    exact (updatePrimary_eq_nil_iff cluster 0).mpr h
  unfold decideAfterValidate
  rw [hops]
  simp

theorem decideNext_success_shapes {cluster : MySQLCluster}
    {status : MySQLClusterStatus} {op : Operation}
    (h : decideNextOperation cluster status = some (some op, none)) :
    (∃ ops, op = Operation.mk ops false [] none) ∨
    (∃ oos, op = Operation.mk [] true (unavailableCondition oos) none) ∨
    (∃ ops oos, op = Operation.mk ops false (availableCondition oos)
        (some (cluster.spec.replicas - (oos.length : Int))) ∧
        waitForReplication status cluster = some (false, oos) ∧
        cluster.status.currentPrimaryIndex = some 0) := by
  unfold decideNextOperation at h
  by_cases hany : status.instanceStatus.any (fun is => !is.available) = true
  · rw [if_pos hany] at h
    simp at h
  · rw [if_neg hany] at h
    rcases hvc : validateConstraints status cluster with _ | e2
    · simp only [hvc] at h
      exact Option.noConfusion h
    · rcases e2 with _ | e
      · simp only [hvc] at h
        simp only [decideAfterValidate] at h
        by_cases hup :
            (updatePrimary cluster (selectPrimary status cluster)).length ≠ 0
        · rw [if_pos hup] at h
          simp only [Option.some.injEq, Prod.mk.injEq] at h
          exact Or.inl ⟨_, h.1.symm⟩
        · rw [if_neg hup] at h
          have hcpi : cluster.status.currentPrimaryIndex = some 0 := by
            have hlen := not_ne_iff.mp hup
            have hnil := List.length_eq_zero.mp hlen
            exact (updatePrimary_eq_nil_iff cluster 0).mp hnil
          simp only [decideAfterUpdatePrimary] at h
          rcases hcfg : configureReplication status cluster with _ | ops2
          · simp only [hcfg] at h
            exact Option.noConfusion h
          · simp only [hcfg] at h
            by_cases h2 : ops2.length ≠ 0
            · rw [if_pos h2] at h
              simp only [Option.some.injEq, Prod.mk.injEq] at h
              exact Or.inl ⟨_, h.1.symm⟩
            · rw [if_neg h2] at h
              rcases hwr : waitForReplication status cluster with _ | wr
              · simp only [hwr] at h
                exact Option.noConfusion h
              · simp only [hwr] at h
                by_cases hw : wr.fst = true
                · rw [if_pos hw] at h
                  simp only [Option.some.injEq, Prod.mk.injEq] at h
                  exact Or.inr (Or.inl ⟨wr.snd, h.1.symm⟩)
                · rw [if_neg hw] at h
                  have hwfalse : wr = (false, wr.snd) := by
                    rcases wr with ⟨wf, ws⟩
                    simp only [Bool.not_eq_true] at hw
                    simp [hw]
                  rcases hac : acceptWriteRequest status cluster with _ | ops3
                  · simp only [hac] at h
                    exact Option.noConfusion h
                  · simp only [hac] at h
                    by_cases h3 : ops3.length ≠ 0
                    · rw [if_pos h3] at h
                      simp only [Option.some.injEq, Prod.mk.injEq] at h
                      refine Or.inr (Or.inr ⟨ops3, wr.snd, h.1.symm, ?_, hcpi⟩)
                      rw [← hwfalse]
                    · rw [if_neg h3] at h
                      simp only [Option.some.injEq, Prod.mk.injEq] at h
                      refine Or.inr (Or.inr ⟨[], wr.snd, h.1.symm, ?_, hcpi⟩)
                      rw [← hwfalse]
      · simp only [hvc] at h
        simp at h

/-- C6: whenever at least one observed instance has `available = false`, the
planner returns no `Operation` at all (hence no operators and no conditions)
together with the `ErrUnavailableHost` error, so neither constraint
validation nor any later stage contributes to the result. -/
theorem c6_unavailable_host (cluster : MySQLCluster)
    (status : MySQLClusterStatus)
    (h : ∃ is ∈ status.instanceStatus, is.available = false) :
    decideNextOperation cluster status =
      some (none, some MocoError.errUnavailableHost) := by
  obtain ⟨is, hmem, hfalse⟩ := h
  apply decideNext_unavailable
  exact List.any_eq_true.mpr ⟨is, hmem, by simp [hfalse]⟩

/-- Witness for C6 at a concrete one-instance status whose instance is
unavailable. -/
theorem c6_unavailable_host_witness :
    decideNextOperation (fixCluster 3 none []) unavailStatus =
      some (none, some MocoError.errUnavailableHost) :=
  c6_unavailable_host (fixCluster 3 none []) unavailStatus
    ⟨fixInstance false none none none, by decide, by decide⟩
/-- C10: every `Operation` the planner returns without error satisfies the
shape invariant: when `Wait` is set the operator list is empty and
`SyncedReplicas` is nil, and `SyncedReplicas` is non-nil exactly when the
returned condition set is an `availableCondition` set (the Available=True
quartet of stages F and G). -/
theorem c10_operation_invariant (cluster : MySQLCluster)
    (status : MySQLClusterStatus) (op : Operation)
    (h : decideNextOperation cluster status = some (some op, none)) :
    (op.wait = true → op.operators = [] ∧ op.syncedReplicas = none) ∧
    (op.syncedReplicas.isSome = true ↔
      ∃ oos, op.conditions = availableCondition oos) := by
  rcases decideNext_success_shapes h with
    ⟨ops, rfl⟩ | ⟨oos, rfl⟩ | ⟨ops, oos, rfl, hwfr, hcpi⟩
  · constructor
    · intro hw
      exact absurd hw (by simp)
    · constructor
      · intro hs
        exact absurd hs (by simp)
      · rintro ⟨oos, hoos⟩
        have hl4 := availableCondition_length oos
        rw [← hoos] at hl4
        cases hl4
  · constructor
    · intro _
      exact ⟨rfl, rfl⟩
    · constructor
      · intro hs
        exact absurd hs (by simp)
      · rintro ⟨oos2, hoos⟩
        exact absurd hoos
          (unavailableCondition_ne_availableCondition oos oos2)
  · constructor
    · intro hw
      exact absurd hw (by simp)
    · constructor
      · intro _
        exact ⟨oos, rfl⟩
      · intro _
        rfl

/-- Witness for C10 at the steady-state fixture (stage G: no operators,
Available=True, syncedReplicas present). -/
theorem c10_operation_invariant_witness :
    ((Operation.mk [] false (availableCondition []) (some 3)).wait = true →
      (Operation.mk [] false (availableCondition []) (some 3)).operators = []
        ∧ (Operation.mk [] false (availableCondition [])
            (some 3)).syncedReplicas = none) ∧
    ((Operation.mk [] false (availableCondition [])
        (some 3)).syncedReplicas.isSome = true ↔
      ∃ oos, (Operation.mk [] false (availableCondition [])
        (some 3)).conditions = availableCondition oos) :=
  c10_operation_invariant steadyCluster steadyStatus
    (Operation.mk [] false (availableCondition []) (some 3)) (by decide)

/-- C1 as stated is false on the code: `decideNextOperation` reports
`syncedReplicas = N − |outOfSync|`, not `N − 1 − |outOfSync|`.  At a healthy
one-instance cluster (N = 1, no out-of-sync instance) it reports 1, which is
neither `N − 1 − |outOfSync| = 0` nor inside `[0, N − 1] = [0, 0]`. -/
theorem c1_syncedReplicas_counterexample :
    decideNextOperation oneCluster oneStatus =
      some (some (Operation.mk [] false (availableCondition []) (some 1)),
        none) ∧
    ¬((1 : Int) =
        oneCluster.spec.replicas - 1 -
          ((outOfSyncSpec oneStatus.instanceStatus 0 0).length : Int)) ∧
    ¬((1 : Int) ≤ oneCluster.spec.replicas - 1) := by
  decide

/-- C1 amended: for every successful reconcile that reaches stage F or G
(the planner returns a non-nil `SyncedReplicas`), the reported value equals
`N − |outOfSync|` where `N = spec.replicas` and an out-of-sync instance is a
non-primary instance with `lastIoErrno ≠ 0`; consequently it lies in
`[1, N]` (not `[0, N−1]` as the spec stated). -/
theorem c1_syncedReplicas_amended (cluster : MySQLCluster)
    (status : MySQLClusterStatus) (op : Operation) (s : Int)
    (hlen : cluster.spec.replicas = (status.instanceStatus.length : Int))
    (h : decideNextOperation cluster status = some (some op, none))
    (hs : op.syncedReplicas = some s) :
    s = cluster.spec.replicas -
        ((outOfSyncSpec status.instanceStatus 0 0).length : Int) ∧
    1 ≤ s ∧ s ≤ cluster.spec.replicas := by
  rcases decideNext_success_shapes h with
    ⟨ops, rfl⟩ | ⟨oos, rfl⟩ | ⟨ops, oos, rfl, hwfr, hcpi⟩
  · cases hs
  · cases hs
  · simp only [Option.some.injEq] at hs
    subst hs
    unfold waitForReplication at hwfr
    simp only [hcpi] at hwfr
    rcases hidx : goIndex status.instanceStatus (0 : Int) with _ | pst
    · simp only [hidx] at hwfr
      exact Option.noConfusion hwfr
    · simp only [hidx] at hwfr
      rcases hpr : pst.primaryStatus with _ | pr
      · simp only [hpr] at hwfr
        exact Option.noConfusion hwfr
      · simp only [hpr] at hwfr
        rcases hwl : waitLoop status.instanceStatus 0 0 pr.executedGtidSet
            0 [] with _ | res
        · simp only [hwl] at hwfr
          exact Option.noConfusion hwfr
        · simp only [hwl] at hwfr
          have hres := waitLoop_eq status.instanceStatus 0 0
            pr.executedGtidSet 0 [] res hwl
          have hoos : oos = outOfSyncSpec status.instanceStatus 0 0 := by
            rcases hgv : pst.globalVariableStatus with _ | gv
            · simp only [hgv] at hwfr
              exact Option.noConfusion hwfr
            · simp only [hgv] at hwfr
              by_cases hro : gv.readOnly = false
              · rw [if_pos hro] at hwfr
                simp only [Option.some.injEq, Prod.mk.injEq] at hwfr
                rw [← hwfr.2, hres]
                simp
              · rw [if_neg hro] at hwfr
                simp only [Option.some.injEq, Prod.mk.injEq] at hwfr
                rw [← hwfr.2, hres]
                simp
          subst hoos
          refine ⟨rfl, ?_, ?_⟩
          · rcases hl : status.instanceStatus with _ | ⟨a, rest⟩
            · rw [hl] at hidx
              rw [goIndex_nil_none] at hidx
              cases hidx
            · rw [outOfSyncSpec_cons_zero]
              have hb := outOfSyncSpec_length_le rest 1 0
              rw [hl] at hlen
              simp only [List.length_cons] at hlen
              omega
          · have hb := outOfSyncSpec_length_le status.instanceStatus 0 0
            omega

/-- Witness for the amended C1 at a healthy one-instance cluster: the value
equals 1 = N − 0 and lies in [1, N]. -/
theorem c1_syncedReplicas_amended_witness :
    (1 : Int) = oneCluster.spec.replicas -
        ((outOfSyncSpec oneStatus.instanceStatus 0 0).length : Int) ∧
    (1 : Int) ≤ 1 ∧ (1 : Int) ≤ oneCluster.spec.replicas :=
  c1_syncedReplicas_amended oneCluster oneStatus
    (Operation.mk [] false (availableCondition []) (some 1)) 1 (by decide)
    (by decide) (by decide)

theorem validate_violation_iff {status : MySQLClusterStatus}
    {cluster : MySQLCluster}
    (hgv : ∀ is ∈ status.instanceStatus,
      is.globalVariableStatus.isSome = true) :
    validateConstraints status cluster =
        some (some MocoError.errConstraintsViolation) ↔
      (1 < (writableIdxFrom status.instanceStatus 0).length ∨
        ∃ p w, cluster.status.currentPrimaryIndex = some p ∧
          writableIdxFrom status.instanceStatus 0 = [w] ∧ w ≠ p) := by
  rw [validateConstraints_eq hgv]
  rcases hW : writableIdxFrom status.instanceStatus 0 with _ | ⟨w, ws⟩
  · rw [if_neg (by simp)]
    have hpm : primaryMismatch cluster
        ((([] : List Int).length : Int),
          (([] : List Int).getLast?).getD 0) = false := by
      unfold primaryMismatch
      rcases cluster.status.currentPrimaryIndex with _ | p
      · rfl
      · simp
    rw [hpm, if_neg (by simp)]
    apply iff_of_false
    · intro heq
      by_cases hf : (findCondition cluster.status.conditions
          MySQLClusterConditionType.conditionViolation).isSome = true
      · rw [if_pos hf] at heq
        simp at heq
      · rw [if_neg hf] at heq
        simp at heq
    · rintro (hlt | ⟨p, w, hp, hW2, hne⟩)
      · simp at hlt
      · cases hW2
  · rcases ws with _ | ⟨w2, ws2⟩
    · rw [if_neg (by norm_num)]
      rcases hcpi : cluster.status.currentPrimaryIndex with _ | p
      · have hpm : primaryMismatch cluster
            ((([w] : List Int).length : Int),
              (([w] : List Int).getLast?).getD 0) = false := by
          unfold primaryMismatch
          rw [hcpi]
        rw [hpm, if_neg (by simp)]
        apply iff_of_false
        · intro heq
          by_cases hf : (findCondition cluster.status.conditions
              MySQLClusterConditionType.conditionViolation).isSome = true
          · rw [if_pos hf] at heq
            simp at heq
          · rw [if_neg hf] at heq
            simp at heq
        · rintro (hlt | ⟨p, w3, hp, hW2, hne⟩)
          · simp at hlt
          · cases hp
      · by_cases hwp : w = p
        · have hpm : primaryMismatch cluster
              ((([w] : List Int).length : Int),
                (([w] : List Int).getLast?).getD 0) = false := by
            unfold primaryMismatch
            rw [hcpi]
            simp [hwp]
          rw [hpm, if_neg (by simp)]
          apply iff_of_false
          · intro heq
            by_cases hf : (findCondition cluster.status.conditions
                MySQLClusterConditionType.conditionViolation).isSome = true
            · rw [if_pos hf] at heq
              simp at heq
            · rw [if_neg hf] at heq
              simp at heq
          · rintro (hlt | ⟨p2, w3, hp, hW2, hne⟩)
            · simp at hlt
            · injection hp with hp2
              injection hW2 with hW3
              subst hp2
              subst hW3
              exact hne hwp
        · have hpm : primaryMismatch cluster
              ((([w] : List Int).length : Int),
                (([w] : List Int).getLast?).getD 0) = true := by
            unfold primaryMismatch
            rw [hcpi]
            have : p ≠ w := fun he => hwp he.symm
            simp [this]
          rw [hpm, if_pos rfl]
          apply iff_of_true rfl
          exact Or.inr ⟨p, w, rfl, rfl, hwp⟩
    · rw [if_pos (by simp only [List.length_cons]; push_cast; omega)]
      apply iff_of_true rfl
      apply Or.inl
      simp

/-- C2: with every instance available (and hence carrying a global-variable
record), the constraint validator reports `ErrConstraintsViolation` exactly
when more than one instance is writable, or `currentPrimaryIndex` is set and
the single writable instance is a different one; and in that case the
planner returns no operators together with the condition quartet
Violation=True, Failure=True, Available=False, Healthy=False. -/
theorem c2_constraints_violation (cluster : MySQLCluster)
    (status : MySQLClusterStatus)
    (hav : ∀ is ∈ status.instanceStatus, is.available = true)
    (hgv : ∀ is ∈ status.instanceStatus,
      is.globalVariableStatus.isSome = true) :
    (validateConstraints status cluster =
        some (some MocoError.errConstraintsViolation) ↔
      (1 < (writableIdxFrom status.instanceStatus 0).length ∨
        ∃ p w, cluster.status.currentPrimaryIndex = some p ∧
          writableIdxFrom status.instanceStatus 0 = [w] ∧ w ≠ p)) ∧
    (validateConstraints status cluster =
        some (some MocoError.errConstraintsViolation) →
      decideNextOperation cluster status =
        some (some (Operation.mk [] false
          (violationCondition MocoError.errConstraintsViolation) none),
          some MocoError.errConstraintsViolation) ∧
      condStatus (violationCondition MocoError.errConstraintsViolation)
        MySQLClusterConditionType.conditionViolation =
          some ConditionStatus.conditionTrue ∧
      condStatus (violationCondition MocoError.errConstraintsViolation)
        MySQLClusterConditionType.conditionFailure =
          some ConditionStatus.conditionTrue ∧
      condStatus (violationCondition MocoError.errConstraintsViolation)
        MySQLClusterConditionType.conditionAvailable =
          some ConditionStatus.conditionFalse ∧
      condStatus (violationCondition MocoError.errConstraintsViolation)
        MySQLClusterConditionType.conditionHealthy =
          some ConditionStatus.conditionFalse) := by
  refine ⟨validate_violation_iff hgv, fun hv => ⟨?_, by decide, by decide,
    by decide, by decide⟩⟩
  rw [decideNext_allAvailable hav, hv]

/-- Witness for C2 at a two-instance status in which both instances are
writable: the validator reports the violation, and the planner returns the
quartet with no operators. -/
theorem c2_constraints_violation_witness :
    (validateConstraints twoWritableStatus twoCluster =
        some (some MocoError.errConstraintsViolation) ↔
      (1 < (writableIdxFrom twoWritableStatus.instanceStatus 0).length ∨
        ∃ p w, twoCluster.status.currentPrimaryIndex = some p ∧
          writableIdxFrom twoWritableStatus.instanceStatus 0 = [w] ∧
            w ≠ p)) ∧
    (validateConstraints twoWritableStatus twoCluster =
        some (some MocoError.errConstraintsViolation) →
      decideNextOperation twoCluster twoWritableStatus =
        some (some (Operation.mk [] false
          (violationCondition MocoError.errConstraintsViolation) none),
          some MocoError.errConstraintsViolation) ∧
      condStatus (violationCondition MocoError.errConstraintsViolation)
        MySQLClusterConditionType.conditionViolation =
          some ConditionStatus.conditionTrue ∧
      condStatus (violationCondition MocoError.errConstraintsViolation)
        MySQLClusterConditionType.conditionFailure =
          some ConditionStatus.conditionTrue ∧
      condStatus (violationCondition MocoError.errConstraintsViolation)
        MySQLClusterConditionType.conditionAvailable =
          some ConditionStatus.conditionFalse ∧
      condStatus (violationCondition MocoError.errConstraintsViolation)
        MySQLClusterConditionType.conditionHealthy =
          some ConditionStatus.conditionFalse) :=
  c2_constraints_violation twoCluster twoWritableStatus (by decide)
    (by decide)

/-- C7 as stated is false on the code: `validateConstraints` only checks
that a Violation-typed condition exists (`findCondition(...) != nil`), not
that its status is True.  With one available read-only instance and a stored
condition set containing Violation with status False, the validator still
returns `ErrConstraintsRecovered` although no Violation=True condition is
stored. -/
theorem c7_constraints_recovered_counterexample :
    validateConstraints oneROStatus recFalseCluster =
      some (some MocoError.errConstraintsRecovered) ∧
    (recFalseCluster.status.conditions.all (fun c =>
      !(decide (c.condType = MySQLClusterConditionType.conditionViolation) &&
        decide (c.status = ConditionStatus.conditionTrue)))) = true := by
  decide

theorem primaryMismatch_true_elim (cluster : MySQLCluster) (r : Int × Int)
    (h : primaryMismatch cluster r = true) :
    ∃ p, cluster.status.currentPrimaryIndex = some p ∧
      r.fst = 1 ∧ p ≠ r.snd := by
  unfold primaryMismatch at h
  rcases hcpi : cluster.status.currentPrimaryIndex with _ | p
  · simp only [hcpi] at h
    cases h
  · simp only [hcpi] at h
    split at h
    · next hcond => exact ⟨p, rfl, hcond.1, hcond.2⟩
    · cases h

/-- C7 amended: for every status with all instances available and no current
violation, the validator returns `ErrConstraintsRecovered` if and only if
the previously stored condition set carries a Violation-typed condition (of
any status); on Recovered the planner returns no operators, so the next
reconcile re-plans. -/
theorem c7_constraints_recovered_amended (cluster : MySQLCluster)
    (status : MySQLClusterStatus)
    (hav : ∀ is ∈ status.instanceStatus, is.available = true)
    (hgv : ∀ is ∈ status.instanceStatus,
      is.globalVariableStatus.isSome = true)
    (hnv : ¬(1 < (writableIdxFrom status.instanceStatus 0).length ∨
        ∃ p w, cluster.status.currentPrimaryIndex = some p ∧
          writableIdxFrom status.instanceStatus 0 = [w] ∧ w ≠ p)) :
    (validateConstraints status cluster =
        some (some MocoError.errConstraintsRecovered) ↔
      (findCondition cluster.status.conditions
        MySQLClusterConditionType.conditionViolation).isSome = true) ∧
    (validateConstraints status cluster =
        some (some MocoError.errConstraintsRecovered) →
      decideNextOperation cluster status =
        some (some (Operation.mk [] false
          (violationCondition MocoError.errConstraintsRecovered) none),
          some MocoError.errConstraintsRecovered)) := by
  have h1 : ¬(1 <
      ((writableIdxFrom status.instanceStatus 0).length : Int)) := by
    intro hlt
    exact hnv (Or.inl (by exact_mod_cast hlt))
  have h2 : primaryMismatch cluster
      (((writableIdxFrom status.instanceStatus 0).length : Int),
        ((writableIdxFrom status.instanceStatus 0).getLast?).getD 0) =
        false := by
    cases hpm : primaryMismatch cluster
        (((writableIdxFrom status.instanceStatus 0).length : Int),
          ((writableIdxFrom status.instanceStatus 0).getLast?).getD 0) with
    | false => rfl
    | true =>
      exfalso
      obtain ⟨p, hp, hl1, hne⟩ := primaryMismatch_true_elim cluster _ hpm
      have hl1b : ((writableIdxFrom status.instanceStatus 0).length : Int) =
        1 := hl1
      have hlen1 : (writableIdxFrom status.instanceStatus 0).length = 1 := by
        exact_mod_cast hl1b
      obtain ⟨w, hw⟩ := List.length_eq_one.mp hlen1
      apply hnv
      right
      refine ⟨p, w, hp, hw, ?_⟩
      have hne2 : p ≠
          ((writableIdxFrom status.instanceStatus 0).getLast?).getD 0 := hne
      rw [hw] at hne2
      intro he
      apply hne2
      simp [he]
  have hval : validateConstraints status cluster =
      some (if (findCondition cluster.status.conditions
          MySQLClusterConditionType.conditionViolation).isSome then
        some MocoError.errConstraintsRecovered
      else none) := by
    rw [validateConstraints_eq hgv, if_neg h1, h2, if_neg (by simp)]
  constructor
  · rw [hval]
    by_cases hf : (findCondition cluster.status.conditions
        MySQLClusterConditionType.conditionViolation).isSome = true
    · rw [if_pos hf]
      exact iff_of_true rfl hf
    · rw [if_neg hf]
      apply iff_of_false (by simp)
      simpa using hf
  · intro hrec
    rw [decideNext_allAvailable hav, hrec]

/-- Witness for the amended C7: one read-only instance, stored conditions
carrying Violation=True; the validator reports Recovered and the planner
returns no operators. -/
theorem c7_constraints_recovered_amended_witness :
    (validateConstraints oneROStatus recTrueCluster =
        some (some MocoError.errConstraintsRecovered) ↔
      (findCondition recTrueCluster.status.conditions
        MySQLClusterConditionType.conditionViolation).isSome = true) ∧
    (validateConstraints oneROStatus recTrueCluster =
        some (some MocoError.errConstraintsRecovered) →
      decideNextOperation recTrueCluster oneROStatus =
        some (some (Operation.mk [] false
          (violationCondition MocoError.errConstraintsRecovered) none),
          some MocoError.errConstraintsRecovered)) :=
  c7_constraints_recovered_amended recTrueCluster oneROStatus (by decide)
    (by decide)
    (by
      intro h
      have hWnil : writableIdxFrom oneROStatus.instanceStatus 0 = [] := by
        decide
      rw [hWnil] at h
      rcases h with hlt | ⟨p, w, hp, hW, hne⟩
      · simp at hlt
      · cases hW)

/-- C4: with every instance available and constraint validation passing, the
planner promotes instance 0 (the unconditional choice of `selectPrimary`)
exactly when the persisted `currentPrimaryIndex` is absent or different:
it then returns the single operator list `[UpdatePrimary(0)]` with no
conditions, no wait flag and no syncedReplicas, and evaluates no later
stage; otherwise stage C emits nothing. -/
theorem c4_update_primary (cluster : MySQLCluster)
    (status : MySQLClusterStatus)
    (hav : ∀ is ∈ status.instanceStatus, is.available = true)
    (hval : validateConstraints status cluster = some none) :
    ((cluster.status.currentPrimaryIndex = none ∨
        cluster.status.currentPrimaryIndex ≠ some 0) →
      decideNextOperation cluster status =
        some (some (Operation.mk [Operator.updatePrimaryOp 0] false []
          none), none)) ∧
    (cluster.status.currentPrimaryIndex = some 0 →
      updatePrimary cluster (selectPrimary status cluster) = []) := by
  constructor
  · intro hne
    have hne2 : cluster.status.currentPrimaryIndex ≠ some 0 := by
      rcases hne with h | h
      · rw [h]
        exact fun he => Option.noConfusion he
      · exact h
    rw [decideNext_allAvailable hav, hval]
    exact decideAfterValidate_newPrimary hne2
  · intro hcpi
    exact (updatePrimary_eq_nil_iff cluster 0).mpr hcpi

/-- Witness for C4: three available read-only instances, no persisted
primary; the planner returns exactly `[UpdatePrimary(0)]`. -/
theorem c4_update_primary_witness :
    ((freshCluster.status.currentPrimaryIndex = none ∨
        freshCluster.status.currentPrimaryIndex ≠ some 0) →
      decideNextOperation freshCluster freshStatus =
        some (some (Operation.mk [Operator.updatePrimaryOp 0] false []
          none), none)) ∧
    (freshCluster.status.currentPrimaryIndex = some 0 →
      updatePrimary freshCluster (selectPrimary freshStatus freshCluster) =
        []) :=
  c4_update_primary freshCluster freshStatus (by decide) (by decide)

/-- C3: once stage E is reached (validation passed, `currentPrimaryIndex =
0` as selected, replication configured so stage D emits nothing), the
replication gate returns `wait = true` exactly when the primary still has
`readOnly = true` and the number of caught-up replicas (non-primary,
`lastIoErrno = 0`, `executedGtidSet` equal to the primary's) is below
`floor(replicas/2)`; once the primary is writable the gate passes
unconditionally. -/
theorem c3_replication_gate (cluster : MySQLCluster)
    (status : MySQLClusterStatus) (pst : MySQLInstanceStatus)
    (ps : MySQLPrimaryStatus) (gv : MySQLGlobalVariablesStatus)
    (hav : ∀ is ∈ status.instanceStatus, is.available = true)
    (hval : validateConstraints status cluster = some none)
    (hcpi : cluster.status.currentPrimaryIndex = some 0)
    (hcfg : configureReplication status cluster = some [])
    (hpst : goIndex status.instanceStatus 0 = some pst)
    (hps : pst.primaryStatus = some ps)
    (hpgv : pst.globalVariableStatus = some gv) :
    waitForReplication status cluster =
      some (decide (gv.readOnly = true ∧
        caughtUpCount status.instanceStatus 0 0 ps.executedGtidSet <
          goHalf cluster.spec.replicas),
        outOfSyncSpec status.instanceStatus 0 0) ∧
    (∀ op, decideNextOperation cluster status = some (some op, none) →
      (op.wait = true ↔ (gv.readOnly = true ∧
        caughtUpCount status.instanceStatus 0 0 ps.executedGtidSet <
          goHalf cluster.spec.replicas))) := by
  have hloopnil : configureLoop status.instanceStatus 0 0
      (primaryHostName cluster 0) = [] := by
    unfold configureReplication at hcfg
    simp only [hcpi] at hcfg
    exact Option.some.inj hcfg
  have hnps := configureLoop_nil_replicaSome status.instanceStatus 0 0
    (primaryHostName cluster 0) hloopnil
  obtain ⟨res, hres⟩ := Option.isSome_iff_exists.mp
    (waitLoop_isSome status.instanceStatus 0 0 ps.executedGtidSet 0 [] hnps)
  have hresval := waitLoop_eq status.instanceStatus 0 0 ps.executedGtidSet
    0 [] res hres
  have hwfr : waitForReplication status cluster =
      some (decide (gv.readOnly = true ∧
        caughtUpCount status.instanceStatus 0 0 ps.executedGtidSet <
          goHalf cluster.spec.replicas),
        outOfSyncSpec status.instanceStatus 0 0) := by
    unfold waitForReplication
    simp only [hcpi, hpst, hps, hres, hpgv]
    cases hro : gv.readOnly with
    | false =>
      rw [if_pos rfl, hresval]
      simp
    | true =>
      rw [if_neg (by simp), hresval]
      simp
  refine ⟨hwfr, ?_⟩
  intro op hop
  rw [decideNext_allAvailable hav] at hop
  simp only [hval] at hop
  rw [decideAfterValidate_primaryKept hcpi] at hop
  unfold decideAfterUpdatePrimary at hop
  simp only [hcfg, hwfr] at hop
  simp only [List.length_nil, ne_eq, not_true_eq_false, if_false,
    reduceIte] at hop
  by_cases hC : (gv.readOnly = true ∧
      caughtUpCount status.instanceStatus 0 0 ps.executedGtidSet <
        goHalf cluster.spec.replicas)
  · simp only [decide_eq_true hC] at hop
    simp only [if_true] at hop
    simp only [Option.some.injEq, Prod.mk.injEq] at hop
    rw [← hop.1]
    simp [hC]
  · simp only [decide_eq_false hC] at hop
    simp only [Bool.false_eq_true, if_false] at hop
    rcases hac : acceptWriteRequest status cluster with _ | ops3
    · simp only [hac] at hop
      exact Option.noConfusion hop
    · simp only [hac] at hop
      by_cases h3 : ops3.length ≠ 0
      · rw [if_pos h3] at hop
        simp only [Option.some.injEq, Prod.mk.injEq] at hop
        rw [← hop.1]
        simp [hC]
      · rw [if_neg h3] at hop
        simp only [Option.some.injEq, Prod.mk.injEq] at hop
        rw [← hop.1]
        simp [hC]

/-- Witness for C3 at a three-instance cluster whose primary is still
read-only with both replicas caught up: the gate passes (wait = false since
2 ≥ floor(3/2) = 1). -/
theorem c3_replication_gate_witness :
    waitForReplication gateStatus steadyCluster =
      some (decide (fixGvReadOnly.readOnly = true ∧
        caughtUpCount gateStatus.instanceStatus 0 0
          fixPrimaryRec.executedGtidSet < goHalf steadyCluster.spec.replicas),
        outOfSyncSpec gateStatus.instanceStatus 0 0) ∧
    (∀ op, decideNextOperation steadyCluster gateStatus =
        some (some op, none) →
      (op.wait = true ↔ (fixGvReadOnly.readOnly = true ∧
        caughtUpCount gateStatus.instanceStatus 0 0
          fixPrimaryRec.executedGtidSet <
            goHalf steadyCluster.spec.replicas))) :=
  c3_replication_gate steadyCluster gateStatus
    (fixInstance true (some fixPrimaryRec) none (some fixGvReadOnly))
    fixPrimaryRec fixGvReadOnly (by decide) (by decide) (by decide)
    (by decide) (by decide) (by decide) (by decide)

/-- C5: at stage D (validation passed, `currentPrimaryIndex = 0`), the
planner derives the primary host name
`"<uniqueName>-0.<uniqueName>.<namespace>.svc"` and emits one
`ConfigureReplication(i, host)` operator for exactly the non-primary
indices whose replica record is nil or whose `masterHost` differs from that
name, in ascending order of `i`; when the list is non-empty the planner
returns it immediately with no conditions, wait flag, or syncedReplicas. -/
theorem c5_configure_replication (cluster : MySQLCluster)
    (status : MySQLClusterStatus)
    (hav : ∀ is ∈ status.instanceStatus, is.available = true)
    (hval : validateConstraints status cluster = some none)
    (hcpi : cluster.status.currentPrimaryIndex = some 0) :
    configureReplication status cluster =
      some ((misconfiguredIdx status.instanceStatus 0 0
          (primaryHostName cluster 0)).map
        (fun j => Operator.configureReplicationOp j
          (primaryHostName cluster 0))) ∧
    (∀ (k : Nat) (is : MySQLInstanceStatus),
      status.instanceStatus.get? k = some is →
      ((k : Int) ∈ misconfiguredIdx status.instanceStatus 0 0
          (primaryHostName cluster 0) ↔
        ((k : Int) ≠ 0 ∧ (is.replicaStatus = none ∨
          ∃ rs, is.replicaStatus = some rs ∧
            rs.masterHost ≠ primaryHostName cluster 0)))) ∧
    (∀ j ∈ misconfiguredIdx status.instanceStatus 0 0
        (primaryHostName cluster 0),
      0 ≤ j ∧ j < (status.instanceStatus.length : Int)) ∧
    List.Sorted (fun a b => a < b)
      (misconfiguredIdx status.instanceStatus 0 0
        (primaryHostName cluster 0)) ∧
    (misconfiguredIdx status.instanceStatus 0 0
        (primaryHostName cluster 0) ≠ [] →
      decideNextOperation cluster status =
        some (some (Operation.mk
          ((misconfiguredIdx status.instanceStatus 0 0
              (primaryHostName cluster 0)).map
            (fun j => Operator.configureReplicationOp j
              (primaryHostName cluster 0))) false [] none), none)) := by
  have hcfg : configureReplication status cluster =
      some ((misconfiguredIdx status.instanceStatus 0 0
          (primaryHostName cluster 0)).map
        (fun j => Operator.configureReplicationOp j
          (primaryHostName cluster 0))) := by
    unfold configureReplication
    simp only [hcpi]
    rw [configureLoop_eq_map]
  refine ⟨hcfg, ?_, ?_, ?_, ?_⟩
  · intro k is hk
    have := misconfigured_mem status.instanceStatus 0 0
      (primaryHostName cluster 0) k is hk
    simpa using this
  · intro j hj
    have h1 := misconfigured_lb status.instanceStatus 0 0
      (primaryHostName cluster 0) j hj
    have h2 := misconfigured_ub status.instanceStatus 0 0
      (primaryHostName cluster 0) j hj
    omega
  · exact misconfigured_sorted status.instanceStatus 0 0
      (primaryHostName cluster 0)
  · intro hne
    rw [decideNext_allAvailable hav]
    simp only [hval]
    rw [decideAfterValidate_primaryKept hcpi]
    unfold decideAfterUpdatePrimary
    simp only [hcfg]
    rw [if_pos]
    simp only [ne_eq, List.length_map, List.length_eq_zero]
    exact hne

/-- Witness for C5 at a status whose instance 1 lacks a replica record and
whose instance 2 replicates from the wrong host: both get operators, in
ascending order, and the planner returns exactly that list. -/
theorem c5_configure_replication_witness :
    configureReplication misconfStatus steadyCluster =
      some ((misconfiguredIdx misconfStatus.instanceStatus 0 0
          (primaryHostName steadyCluster 0)).map
        (fun j => Operator.configureReplicationOp j
          (primaryHostName steadyCluster 0))) ∧
    (∀ (k : Nat) (is : MySQLInstanceStatus),
      misconfStatus.instanceStatus.get? k = some is →
      ((k : Int) ∈ misconfiguredIdx misconfStatus.instanceStatus 0 0
          (primaryHostName steadyCluster 0) ↔
        ((k : Int) ≠ 0 ∧ (is.replicaStatus = none ∨
          ∃ rs, is.replicaStatus = some rs ∧
            rs.masterHost ≠ primaryHostName steadyCluster 0)))) ∧
    (∀ j ∈ misconfiguredIdx misconfStatus.instanceStatus 0 0
        (primaryHostName steadyCluster 0),
      0 ≤ j ∧ j < (misconfStatus.instanceStatus.length : Int)) ∧
    List.Sorted (fun a b => a < b)
      (misconfiguredIdx misconfStatus.instanceStatus 0 0
        (primaryHostName steadyCluster 0)) ∧
    (misconfiguredIdx misconfStatus.instanceStatus 0 0
        (primaryHostName steadyCluster 0) ≠ [] →
      decideNextOperation steadyCluster misconfStatus =
        some (some (Operation.mk
          ((misconfiguredIdx misconfStatus.instanceStatus 0 0
              (primaryHostName steadyCluster 0)).map
            (fun j => Operator.configureReplicationOp j
              (primaryHostName steadyCluster 0))) false [] none), none)) :=
  c5_configure_replication steadyCluster misconfStatus (by decide)
    (by decide) (by decide)

/-- C8: in every execution of `updatePrimaryOp.Run`, the resource-store
write of `currentPrimaryIndex = newIndex` strictly precedes every MySQL
statement in the emitted trace (it is the head of any trace containing an
exec event), and the semi-sync wait count SET statement appears only when
the observed `rplSemiSyncMasterWaitForSlaveCount` differs from
`floor(replicas/2)`. -/
theorem c8_updatePrimary_ordering (env : UpdatePrimaryEnv)
    (cluster : MySQLCluster) (status : MySQLClusterStatus) (idx : Int)
    (tr : List RunEvent) (errFlag : Bool)
    (h : updatePrimaryRun env cluster status idx = some (tr, errFlag)) :
    (∀ stmt, RunEvent.mysqlExec stmt ∈ tr →
      tr.head? = some (RunEvent.storeWriteCurrentPrimaryIndex idx) ∧
        RunEvent.mysqlExec stmt ∈ tr.tail) ∧
    (∀ st gv, goIndex status.instanceStatus idx = some st →
      st.globalVariableStatus = some gv →
      RunEvent.mysqlExec waitCountStmt ∈ tr →
      gv.rplSemiSyncMasterWaitForSlaveCount ≠
        goHalf cluster.spec.replicas) := by
  simp only [updatePrimaryRun] at h
  by_cases h1 : env.getDBOk = false
  · rw [if_pos h1] at h
    simp only [Option.some.injEq, Prod.mk.injEq] at h
    rw [← h.1]
    constructor
    · intro stmt hm
      simp at hm
    · intro st gv _ _ hm
      simp at hm
  · rw [if_neg h1] at h
    by_cases h2 : env.statusUpdateOk = false
    · rw [if_pos h2] at h
      simp only [Option.some.injEq, Prod.mk.injEq] at h
      rw [← h.1]
      constructor
      · intro stmt hm
        rw [List.mem_singleton] at hm
        exact RunEvent.noConfusion hm
      · intro st gv _ _ hm
        rw [List.mem_singleton] at hm
        exact RunEvent.noConfusion hm
    · rw [if_neg h2] at h
      by_cases h3 : env.execSemiSyncOk = false
      · rw [if_pos h3] at h
        simp only [Option.some.injEq, Prod.mk.injEq] at h
        rw [← h.1]
        constructor
        · intro stmt hm
          refine ⟨rfl, ?_⟩
          rcases List.mem_cons.mp hm with he | hm2
          · exact RunEvent.noConfusion he
          · exact hm2
        · intro st gv _ _ hm
          rcases List.mem_cons.mp hm with he | hm2
          · exact RunEvent.noConfusion he
          · rw [List.mem_singleton] at hm2
            injection hm2 with hs
            exact absurd hs (by decide)
      · rw [if_neg h3] at h
        rcases hst0 : goIndex status.instanceStatus idx with _ | st0
        · simp only [hst0] at h
          exact Option.noConfusion h
        · simp only [hst0] at h
          rcases hgv0 : st0.globalVariableStatus with _ | gv0
          · simp only [hgv0] at h
            exact Option.noConfusion h
          · simp only [hgv0] at h
            by_cases heq : gv0.rplSemiSyncMasterWaitForSlaveCount =
                goHalf cluster.spec.replicas
            · rw [if_pos heq] at h
              simp only [Option.some.injEq, Prod.mk.injEq] at h
              rw [← h.1]
              constructor
              · intro stmt hm
                refine ⟨rfl, ?_⟩
                rcases List.mem_cons.mp hm with he | hm2
                · exact RunEvent.noConfusion he
                · exact hm2
              · intro st gv _ _ hm
                rcases List.mem_cons.mp hm with he | hm2
                · exact RunEvent.noConfusion he
                · rw [List.mem_singleton] at hm2
                  injection hm2 with hs
                  exact absurd hs (by decide)
            · rw [if_neg heq] at h
              simp only [Option.some.injEq, Prod.mk.injEq] at h
              rw [← h.1]
              constructor
              · intro stmt hm
                refine ⟨rfl, ?_⟩
                rcases List.mem_cons.mp hm with he | hm2
                · exact RunEvent.noConfusion he
                · exact hm2
              · intro st gv hst hgv _
                injection hst with hst2
                subst hst2
                rw [hgv0] at hgv
                injection hgv with hgv2
                subst hgv2
                exact heq

/-- Witness for C8: a successful run on the steady fixture (wait count
already correct, so the trace is store-write followed by the single
semi-sync statement). -/
theorem c8_updatePrimary_ordering_witness :
    (∀ stmt, RunEvent.mysqlExec stmt ∈
        [RunEvent.storeWriteCurrentPrimaryIndex 0,
          RunEvent.mysqlExec semiSyncEnableStmt] →
      ([RunEvent.storeWriteCurrentPrimaryIndex 0,
        RunEvent.mysqlExec semiSyncEnableStmt] : List RunEvent).head? =
          some (RunEvent.storeWriteCurrentPrimaryIndex 0) ∧
        RunEvent.mysqlExec stmt ∈
          ([RunEvent.storeWriteCurrentPrimaryIndex 0,
            RunEvent.mysqlExec semiSyncEnableStmt] : List RunEvent).tail) ∧
    (∀ st gv, goIndex steadyStatus.instanceStatus 0 = some st →
      st.globalVariableStatus = some gv →
      RunEvent.mysqlExec waitCountStmt ∈
        [RunEvent.storeWriteCurrentPrimaryIndex 0,
          RunEvent.mysqlExec semiSyncEnableStmt] →
      gv.rplSemiSyncMasterWaitForSlaveCount ≠
        goHalf steadyCluster.spec.replicas) :=
  c8_updatePrimary_ordering (UpdatePrimaryEnv.mk true true true true)
    steadyCluster steadyStatus 0
    [RunEvent.storeWriteCurrentPrimaryIndex 0,
      RunEvent.mysqlExec semiSyncEnableStmt] false (by decide)

/-- C9: for a non-empty observed status produced by the instance probe in
which every instance is available, the planner never panics: the probe sets
`Available = true` only after assigning the primary and global-variable
records, `validateConstraints` therefore dereferences no nil record, and
the replication stages are reached only when `configureReplication`
emitted nothing, which forces every non-primary replica record (and the
current primary index) to be present at each dereference. -/
theorem c9_no_nil_dereference (cluster : MySQLCluster)
    (status : MySQLClusterStatus)
    (hprobe : ∀ is ∈ status.instanceStatus, ∃ p, is = probeInstance p)
    (hav : ∀ is ∈ status.instanceStatus, is.available = true)
    (hne : status.instanceStatus ≠ []) :
    decideNextOperation cluster status ≠ none := by
  have hrec : ∀ is ∈ status.instanceStatus,
      is.primaryStatus.isSome = true ∧
        is.globalVariableStatus.isSome = true := by
    intro is hm
    obtain ⟨p, hp⟩ := hprobe is hm
    rw [hp]
    exact probeInstance_available (by rw [← hp]; exact hav is hm)
  have hgv : ∀ is ∈ status.instanceStatus,
      is.globalVariableStatus.isSome = true := fun is hm => (hrec is hm).2
  rw [decideNext_allAvailable hav]
  have hv := @validateConstraints_eq status cluster hgv
  simp only [hv]
  rcases hvv : (if 1 <
      ((writableIdxFrom status.instanceStatus 0).length : Int) then
        some MocoError.errConstraintsViolation
      else if primaryMismatch cluster
          (((writableIdxFrom status.instanceStatus 0).length : Int),
           ((writableIdxFrom status.instanceStatus 0).getLast?).getD 0) then
        some MocoError.errConstraintsViolation
      else if (findCondition cluster.status.conditions
          MySQLClusterConditionType.conditionViolation).isSome then
        some MocoError.errConstraintsRecovered
      else none) with _ | e
  · by_cases hup : cluster.status.currentPrimaryIndex = some 0
    · rw [decideAfterValidate_primaryKept hup]
      unfold decideAfterUpdatePrimary
      have hcfg : configureReplication status cluster =
          some (configureLoop status.instanceStatus 0 0
            (primaryHostName cluster 0)) := by
        unfold configureReplication
        simp only [hup]
      simp only [hcfg]
      by_cases h2 : (configureLoop status.instanceStatus 0 0
          (primaryHostName cluster 0)).length ≠ 0
      · rw [if_pos h2]
        simp
      · rw [if_neg h2]
        have hloopnil : configureLoop status.instanceStatus 0 0
            (primaryHostName cluster 0) = [] :=
          List.length_eq_zero.mp (not_ne_iff.mp h2)
        have hnps := configureLoop_nil_replicaSome status.instanceStatus
          0 0 (primaryHostName cluster 0) hloopnil
        obtain ⟨a, rest, hls⟩ := List.exists_cons_of_ne_nil hne
        have hidx : goIndex status.instanceStatus 0 = some a := by
          rw [hls]
          exact goIndex_cons_zero a rest
        have hmema : a ∈ status.instanceStatus := by
          rw [hls]
          exact List.mem_cons_self a rest
        obtain ⟨hps_some, hgv_some⟩ := hrec a hmema
        obtain ⟨pr, hpr⟩ := Option.isSome_iff_exists.mp hps_some
        obtain ⟨gv, hgve⟩ := Option.isSome_iff_exists.mp hgv_some
        obtain ⟨res, hresl⟩ := Option.isSome_iff_exists.mp
          (waitLoop_isSome status.instanceStatus 0 0 pr.executedGtidSet
            0 [] hnps)
        have hwfr : ∃ w oosl, waitForReplication status cluster =
            some (w, oosl) := by
          unfold waitForReplication
          simp only [hup, hidx, hpr, hresl, hgve]
          by_cases hro : gv.readOnly = false
          · rw [if_pos hro]
            exact ⟨_, _, rfl⟩
          · rw [if_neg hro]
            exact ⟨_, _, rfl⟩
        obtain ⟨w, oosl, hwfr⟩ := hwfr
        simp only [hwfr]
        have hac : ∃ ops3, acceptWriteRequest status cluster =
            some ops3 := by
          unfold acceptWriteRequest
          simp only [hup, hidx, hgve]
          by_cases hro : gv.readOnly = false
          · rw [if_pos hro]
            exact ⟨_, rfl⟩
          · rw [if_neg hro]
            exact ⟨_, rfl⟩
        obtain ⟨ops3, hac⟩ := hac
        split
        · simp
        · simp only [hac]
          split
          · simp
          · simp
    · rw [decideAfterValidate_newPrimary hup]
      simp
  · simp

/-- Witness for C9: a one-instance probe-produced status with an available
writable instance; the planner returns a value (no panic). -/
theorem c9_no_nil_dereference_witness :
    decideNextOperation oneCluster probeStatus ≠ none :=
  c9_no_nil_dereference oneCluster probeStatus
    (by
      intro is hm
      simp only [probeStatus] at hm
      rw [List.mem_singleton] at hm
      exact ⟨fixProbe, hm⟩)
    (by decide) (by decide)
